import Mathlib

/-!
Shallow embedding of the `llamasearchai/llamamoonlight` repository.

The repository ships exactly two source files:
  * `src/llamamoonlight/__init__.py`
  * `src/setup.py`

Both files consist of a handful of Python statements followed by long runs
of `# Updated in commit N - timestamp` comment lines.  The embedding below
represents each file as a list of lines (statement / comment / blank),
with the statements translated construct-by-construct from the source.

The Python fragment used by these two files is small: a module docstring,
assignments of string or list-of-string literals, `from X import a, b`
(absolute and relative), a `with open(...) as fh:` block whose body is a
single assignment, and a keyword-argument call (`setup(...)`,
`find_packages(...)`).  The AST types below cover exactly this fragment.

Semantics modelled from CPython (all supported versions):
  * comments and blank lines are discarded by the lexer and never reach
    execution;
  * a call expression with a repeated keyword argument is rejected while
    the module is being compiled (`SyntaxError: keyword argument
    repeated`), before any statement of the module runs;
  * a `from .m import ...` statement inside package `p` resolves the
    submodule name `p.m`; if no such module exists the statement raises
    `ModuleNotFoundError`;
  * importing a package compiles and executes its `__init__` module, and
    the import succeeds only if every statement of the module succeeds.
-/

namespace Llamamoonlight

/-- Atomic expressions occurring in the two source files: string literals,
name references, lists of string literals, dicts mapping strings to
strings, and dicts mapping strings to lists of strings. -/
inductive PyAtom where
  | str (s : String)
  | name (n : String)
  | strList (xs : List String)
  | strPairs (xs : List (String × String))
  | strListDict (xs : List (String × List String))
  deriving DecidableEq

/-- Expressions: an atom, or a call with keyword arguments whose values
are atoms (the only nested calls in the repository are
`find_packages(include=[...])`, `find_packages(where="src")` and
`fh.read()`, all of which have atomic keyword values). -/
inductive PyExpr where
  | atom (a : PyAtom)
  | call (fn : String) (kwargs : List (String × PyAtom))
  deriving DecidableEq

/-- Statements of the fragment.  The repository contains no `class` or
`def` statement anywhere, so the statement type has no constructor for
definitions.  A `with open(path, mode, encoding=enc) as nm:` block in this
repository always has a body consisting of assignments, so the body is
typed as a list of (target, value) pairs. -/
inductive PyStmt where
  | docstring (s : String)
  | assign (target : String) (value : PyExpr)
  | importFrom (relative : Bool) (module : String) (names : List String)
  | withOpen (path mode enc asName : String) (body : List (String × PyExpr))
  | callStmt (fn : String) (kwargs : List (String × PyExpr))
  deriving DecidableEq

/-- A physical line of a source file: a statement (possibly spanning
several physical lines in the original text), a comment line, or a blank
line. -/
inductive PyLine where
  | code (s : PyStmt)
  | comment (s : String)
  | blank
  deriving DecidableEq

/-- Errors surfaced by compiling or running the embedded fragment. -/
inductive PyErr where
  | parseError (msg : String)
  | moduleNotFound (modName : String)
  | fileNotFound (path : String)
  deriving DecidableEq

/-! ## The two source files, translated statement by statement -/

/-- The keyword arguments of the `setup(...)` call in `src/setup.py`,
lines 6-67, in source order.  Note that `packages=` occurs twice: once at
line 33 with `find_packages(include=["llamamoonlight", "llamamoonlight.*"])`
and once at line 66 with `find_packages(where="src")`. -/
def setupCallKwargs : List (String × PyExpr) :=
  [ ("name", .atom (.str ("llamamoonlight-llamasearch"))),
    ("version", .atom (.str ("0.1.0"))),
    ("author", .atom (.str ("LlamaSearch AI"))),
    ("author_email", .atom (.str ("nikjois@llamasearch.ai"))),
    ("description", .atom (.str ("A powerful library for AI-powered search and data processing"))),
    ("long_description", .atom (.name ("long_description"))),
    ("long_description_content_type", .atom (.str ("text/markdown"))),
    ("url", .atom (.str ("https://llamasearch.ai"))),
    ("project_urls", .atom (.strPairs
      [ ("Bug Tracker", "https://github.com/llamasearchai/llamamoonlight/issues"),
        ("Documentation", "https://llamasearchai.github.io/llamamoonlight/"),
        ("Source Code", "https://github.com/llamasearchai/llamamoonlight") ])),
    ("classifiers", .atom (.strList
      [ "Programming Language :: Python :: 3",
        "Programming Language :: Python :: 3.8",
        "Programming Language :: Python :: 3.9",
        "Programming Language :: Python :: 3.10",
        "Programming Language :: Python :: 3.11",
        "License :: OSI Approved :: MIT License",
        "Operating System :: OS Independent",
        "Development Status :: 4 - Beta",
        "Intended Audience :: Developers",
        "Topic :: Software Development :: Libraries :: Python Modules",
        "Topic :: Scientific/Engineering :: Artificial Intelligence" ])),
    ("packages", .call ("find_packages")
      [ ("include", .strList ["llamamoonlight", "llamamoonlight.*"]) ]),
    ("python_requires", .atom (.str (">=3.8"))),
    ("install_requires", .atom (.strList
      [ "numpy>=1.20.0", "pandas>=1.3.0", "requests>=2.25.0", "tqdm>=4.62.0" ])),
    ("extras_require", .atom (.strListDict
      [ ("dev",
          [ "pytest>=6.0.0", "pytest-cov>=2.12.0", "black>=21.5b2",
            "isort>=5.9.0", "flake8>=3.9.0", "mypy>=0.900" ]),
        ("mlx", ["mlx>=0.0.5"]),
        ("all",
          [ "mlx>=0.0.5", "matplotlib>=3.4.0", "seaborn>=0.11.0",
            "scikit-learn>=1.0.0" ]) ])),
    ("entry_points", .atom (.strListDict
      [ ("console_scripts", ["llamamoonlight=llamamoonlight.cli:main"]) ])),
    ("package_dir", .atom (.strPairs [("", "src")])),
    ("packages", .call ("find_packages") [("where", .str ("src"))]) ]

/-- `src/llamamoonlight/__init__.py`, line by line. -/
def init_py : List PyLine :=
  [ .code (.docstring ("llamamoonlight - A powerful tool for working with moonlight data")),
    .blank,
    .code (.assign ("__version__") (.atom (.str ("0.1.0")))),
    .blank,
    .code (.importFrom true ("client") ["Client", "Config"]),
    .blank,
    .code (.assign ("__all__") (.atom (.strList ["Client", "Config"]))),
    .blank,
    .comment ("Updated in commit 2 - 2025-04-04 17:22:51"),
    .blank,
    .comment ("Updated in commit 10 - 2025-04-04 17:22:52"),
    .blank,
    .comment ("Updated in commit 18 - 2025-04-04 17:22:53"),
    .blank,
    .comment ("Updated in commit 26 - 2025-04-04 17:22:54"),
    .blank,
    .comment ("Updated in commit 2 - 2025-04-05 14:31:02"),
    .blank,
    .comment ("Updated in commit 10 - 2025-04-05 14:31:02"),
    .blank,
    .comment ("Updated in commit 18 - 2025-04-05 14:31:02"),
    .blank,
    .comment ("Updated in commit 26 - 2025-04-05 14:31:02") ]

/-- `src/setup.py`, line by line.  The trailing comment block (lines
69-131) is translated in full. -/
def setup_py : List PyLine :=
  [ .code (.importFrom false ("setuptools") ["setup", "find_packages"]),
    .blank,
    .code (.withOpen ("README.md") ("r") ("utf-8") ("fh")
      [ ("long_description", .call ("fh.read") []) ]),
    .blank,
    .code (.callStmt ("setup") setupCallKwargs),
    .blank,
    .comment ("Updated in commit 5 - 2025-04-04 17:22:52"),
    .blank,
    .comment ("Updated in commit 13 - 2025-04-04 17:22:52"),
    .blank,
    .comment ("Updated in commit 21 - 2025-04-04 17:22:53"),
    .blank,
    .comment ("Updated in commit 29 - 2025-04-04 17:22:54"),
    .blank,
    .comment ("Updated in commit 5 - 2025-04-05 14:31:02"),
    .blank,
    .comment ("Updated in commit 13 - 2025-04-05 14:31:02"),
    .blank,
    .comment ("Updated in commit 21 - 2025-04-05 14:31:02"),
    .blank,
    .comment ("Updated in commit 29 - 2025-04-05 14:31:02"),
    .blank,
    .comment ("Updated in commit 5 - 2025-04-05 15:17:29"),
    .blank,
    .comment ("Updated in commit 13 - 2025-04-05 15:17:29"),
    .blank,
    .comment ("Updated in commit 21 - 2025-04-05 15:17:29"),
    .blank,
    .comment ("Updated in commit 29 - 2025-04-05 15:17:30"),
    .blank,
    .comment ("Updated in commit 5 - 2025-04-05 15:48:15"),
    .blank,
    .comment ("Updated in commit 13 - 2025-04-05 15:48:16"),
    .blank,
    .comment ("Updated in commit 21 - 2025-04-05 15:48:16"),
    .blank,
    .comment ("Updated in commit 29 - 2025-04-05 15:48:16"),
    .blank,
    .comment ("Updated in commit 5 - 2025-04-05 16:53:28"),
    .blank,
    .comment ("Updated in commit 13 - 2025-04-05 16:53:28"),
    .blank,
    .comment ("Updated in commit 21 - 2025-04-05 16:53:28"),
    .blank,
    .comment ("Updated in commit 29 - 2025-04-05 16:53:28"),
    .blank,
    .comment ("Updated in commit 5 - 2025-04-05 17:25:17"),
    .blank,
    .comment ("Updated in commit 13 - 2025-04-05 17:25:17"),
    .blank,
    .comment ("Updated in commit 21 - 2025-04-05 17:25:17"),
    .blank,
    .comment ("Updated in commit 29 - 2025-04-05 17:25:17"),
    .blank,
    .comment ("Updated in commit 5 - 2025-04-05 18:12:24"),
    .blank,
    .comment ("Updated in commit 13 - 2025-04-05 18:12:24"),
    .blank,
    .comment ("Updated in commit 21 - 2025-04-05 18:12:24"),
    .blank,
    .comment ("Updated in commit 29 - 2025-04-05 18:12:25"),
    .blank,
    .comment ("Updated in commit 5 - 2025-04-05 18:36:27"),
    .blank,
    .comment ("Updated in commit 13 - 2025-04-05 18:36:28"),
    .blank,
    .comment ("Updated in commit 21 - 2025-04-05 18:36:28"),
    .blank,
    .comment ("Updated in commit 29 - 2025-04-05 18:36:28") ]

/-- The supplied source files, keyed by path. -/
def repoFiles : List (String × List PyLine) :=
  [ ("src/llamamoonlight/__init__.py", init_py),
    ("src/setup.py", setup_py) ]

/-! ## Compilation: comment stripping and the repeated-keyword check -/

/-- The statements of a file, in order; comment and blank lines carry no
statement (CPython's lexer discards them before parsing). -/
def fileStatements (f : List PyLine) : List PyStmt :=
  f.foldr (fun l acc => match l with | .code s => s :: acc | _ => acc) []

/-- Does a list of strings contain a repeated element? -/
def hasDup : List String → Bool
  | [] => false
  | x :: xs => xs.contains x || hasDup xs

/-- A call expression is well formed iff no keyword argument name is
repeated (CPython rejects a repeated keyword with a `SyntaxError` while
compiling the enclosing module). -/
def exprKwOk : PyExpr → Bool
  | .atom _ => true
  | .call _ kwargs => !hasDup (kwargs.map Prod.fst)

/-- Well-formedness of a statement: every call expression inside it has
pairwise-distinct keyword argument names. -/
def stmtKwOk : PyStmt → Bool
  | .docstring _ => true
  | .assign _ v => exprKwOk v
  | .importFrom _ _ _ => true
  | .withOpen _ _ _ _ body => body.all (fun p => exprKwOk p.2)
  | .callStmt _ kwargs =>
      !hasDup (kwargs.map Prod.fst) && kwargs.all (fun p => exprKwOk p.2)

/-- Compiling a module: strip comments and blanks, then reject the module
with a `SyntaxError` if any call repeats a keyword argument.  CPython
performs this check on the whole module before executing any statement of
it. -/
def compileFile (f : List PyLine) : Except PyErr (List PyStmt) :=
  let stmts := fileStatements f
  if stmts.all stmtKwOk then .ok stmts
  else .error (.parseError ("keyword argument repeated"))

/-- The statements of a file that can ever execute: a file that fails to
compile yields no executable statements at all. -/
def executableStatements (f : List PyLine) : List PyStmt :=
  match compileFile f with
  | .ok stmts => stmts
  | .error _ => []

/-- Remove the comment lines of a file, leaving code and blank lines. -/
def stripCommentLines (f : List PyLine) : List PyLine :=
  f.filter (fun l => match l with | .comment _ => false | _ => true)

/-! ## Execution -/

/-- Runtime environment: names bound in the module, most recent first.
Bindings map names to the (unevaluated) expression that produced them;
value-level evaluation is irrelevant to every claim. -/
abbrev Env : Type := List (String × PyExpr)

/-- Modules importable in this repository's source tree: the package
`llamamoonlight` is the only one (its only file is `__init__.py`; there is
no `llamamoonlight.client` and no `llamamoonlight.cli` submodule anywhere
under `src/`). -/
def llamaModuleTree : List String := ["llamamoonlight"]

/-- Third-party modules present in a build environment that runs
`setup.py` (setuptools itself). -/
def distModules : List String := ["setuptools"]

/-- Resolve the module named by a `from ... import` statement: a relative
`from .m import ...` inside package `pkg` names `pkg.m`; an absolute one
names `m` itself. -/
def resolveImport (pkg : String) (relative : Bool) (m : String) : String :=
  if relative then pkg ++ ("." ++ m) else m

/-- Execute one statement.  `tree` is the set of importable modules, `fs`
the set of files that exist in the working directory, `pkg` the package
the executing module belongs to. -/
def execStmt (tree fs : List String) (pkg : String) (env : Env) :
    PyStmt → Except PyErr Env
  | .docstring _ => .ok env
  | .assign t v => .ok ((t, v) :: env)
  | .importFrom rel m names =>
      let full := resolveImport pkg rel m
      if tree.contains full then
        .ok ((names.map (fun n => (n, PyExpr.atom (.name (full ++ ("." ++ n)))))) ++ env)
      else .error (.moduleNotFound full)
  | .withOpen path _ _ asName body =>
      if fs.contains path then
        .ok (body ++ ((asName, PyExpr.atom (.name (path))) :: env))
      else .error (.fileNotFound path)
  | .callStmt _ _ => .ok env

/-- Run a statement list, recording the statements that completed; on the
first error the run stops and no later statement executes. -/
def runStmts (tree fs : List String) (pkg : String) :
    Env → List PyStmt → List PyStmt × Option PyErr
  | _, [] => ([], none)
  | env, s :: rest =>
      match execStmt tree fs pkg env s with
      | .error e => ([], some e)
      | .ok env2 =>
          let (tr, r) := runStmts tree fs pkg env2 rest
          (s :: tr, r)

/-- Run a whole file: compile it first; a compile error means no statement
of the file ever executes. -/
def runFile (tree fs : List String) (pkg : String) (f : List PyLine) :
    List PyStmt × Option PyErr :=
  match compileFile f with
  | .error e => ([], some e)
  | .ok stmts => runStmts tree fs pkg [] stmts

/-- Import the top-level package `llamamoonlight` given its `__init__`
file: compile it, then execute its statements in the package's module
namespace.  The import succeeds iff every statement succeeds. -/
def importLlamamoonlight (initFile : List PyLine) : Except PyErr Env :=
  match compileFile initFile with
  | .error e => .error e
  | .ok stmts =>
      stmts.foldlM (fun env s => execStmt llamaModuleTree [] ("llamamoonlight") env s) ([] : Env)

/-- Run `src/setup.py` as a script in a build environment, with or without
a `README.md` in the working directory. -/
def runSetupScript (readmeExists : Bool) : List PyStmt × Option PyErr :=
  runFile distModules (if readmeExists then ["README.md"] else []) ("") setup_py

/-! ## Static analysis of the source text

These functions read the statement lists of the files as text (independent
of whether the file compiles): which names a file defines, which names it
references, and which modules it imports. -/

/-- Names a statement defines (assignment targets, `with ... as` names and
the assignment targets of the `with` body).  The repository contains no
`class` or `def` statement, so these are the only defining forms; the
names bound by a `from ... import` are bindings of foreign objects, listed
separately by `stmtImportBoundNames`. -/
def stmtDefTargets : PyStmt → List String
  | .assign t _ => [t]
  | .withOpen _ _ _ asName body => asName :: body.map Prod.fst
  | _ => []

/-- Names a statement binds via `from ... import`. -/
def stmtImportBoundNames : PyStmt → List String
  | .importFrom _ _ names => names
  | _ => []

/-- Names referenced by an expression: name references and called
functions. -/
def exprNameRefs : PyExpr → List String
  | .atom (.name n) => [n]
  | .atom _ => []
  | .call fn kwargs =>
      fn :: kwargs.filterMap (fun p => match p.2 with | .name n => some n | _ => none)

/-- Names referenced by a statement, including the modules and names of
its import statements. -/
def stmtNameRefs : PyStmt → List String
  | .docstring _ => []
  | .assign _ v => exprNameRefs v
  | .importFrom _ m names => m :: names
  | .withOpen _ _ _ _ body => body.flatMap (fun p => exprNameRefs p.2)
  | .callStmt fn kwargs => fn :: kwargs.flatMap (fun p => exprNameRefs p.2)

/-- Modules named by a file's import statements, with relative imports
resolved against the package the file belongs to. -/
def fileImportedModules (pkg : String) (f : List PyLine) : List String :=
  (fileStatements f).filterMap (fun s =>
    match s with
    | .importFrom rel m _ => some (resolveImport pkg rel m)
    | _ => none)

/-- Every name defined (by assignment or `with ... as`) anywhere in the
supplied source files. -/
def repoDefTargets : List String :=
  (fileStatements init_py).flatMap stmtDefTargets ++
    (fileStatements setup_py).flatMap stmtDefTargets

/-- Every name referenced anywhere in the supplied source files. -/
def repoReferencedNames : List String :=
  (fileStatements init_py).flatMap stmtNameRefs ++
    (fileStatements setup_py).flatMap stmtNameRefs

/-- Every module imported anywhere in the supplied source files. -/
def repoImportedModules : List String :=
  fileImportedModules ("llamamoonlight") init_py ++ fileImportedModules ("") setup_py

/-- Is `c` a character that can open a PEP 440 version-comparison
operator in a requirement string? -/
def isVersionOpChar (c : Char) : Bool :=
  c == '>' || c == '<' || c == '=' || c == '!' || c == '~'

/-- The characters before the first version-operator character. -/
def takeUntilVersionOp : List Char → List Char
  | [] => []
  | c :: cs => if isVersionOpChar c then [] else c :: takeUntilVersionOp cs

/-- The distribution name of a requirement string: the characters before
the first version-comparison operator (`"numpy>=1.20.0"` names `numpy`). -/
def requirementName (r : String) : String :=
  String.mk (takeUntilVersionOp r.data)

/-- The first value assigned to `target` in a file's source text. -/
def assignedValue (f : List PyLine) (target : String) : Option PyExpr :=
  ((fileStatements f).filterMap (fun s =>
    match s with
    | .assign t v => if t == target then some v else none
    | _ => none)).head?

/-! ## Call semantics and the packaging metadata -/

/-- Does a keyword-argument list repeat a name? -/
def duplicateKwNames (kws : List (String × PyExpr)) : Bool :=
  hasDup (kws.map Prod.fst)

/-- The keyword arguments a Python callee receives from a call written
with the given keyword list: CPython rejects a repeated keyword argument
with a `SyntaxError` when the call is compiled, so a list with a repeated
name is never received at all (`none`); otherwise the callee receives the
list as written. -/
def receivedKwargs (kws : List (String × PyExpr)) : Option (List (String × PyExpr)) :=
  if duplicateKwNames kws then none else some kws

/-- The `install_requires` list declared in the `setup(...)` call. -/
def installRequiresList : List String :=
  match setupCallKwargs.lookup ("install_requires") with
  | some (.atom (.strList xs)) => xs
  | _ => []

/-- The `extras_require` table declared in the `setup(...)` call. -/
def extrasRequireList : List (String × List String) :=
  match setupCallKwargs.lookup ("extras_require") with
  | some (.atom (.strListDict xs)) => xs
  | _ => []

/-- The `console_scripts` entry-point specifications declared in the
`setup(...)` call. -/
def entryPointSpecs : List String :=
  match setupCallKwargs.lookup ("entry_points") with
  | some (.atom (.strListDict xs)) =>
      match xs.lookup ("console_scripts") with
      | some specs => specs
      | none => []
  | _ => []

/-- Split a character list at the first occurrence of `sep`, dropping the
separator. -/
def breakOnChar (sep : Char) : List Char → List Char × List Char
  | [] => ([], [])
  | c :: cs =>
      if c == sep then ([], cs)
      else
        let p := breakOnChar sep cs
        (c :: p.1, p.2)

/-- Resolve a `console_scripts` specification `name=module:attr` against a
module tree: the script dispatches to attribute `attr` of `module`, which
resolves to a callable only if `module` exists in the tree.  Modelled on
setuptools/importlib behaviour: the wrapper script imports `module` and
looks up `attr` in it. -/
def resolveEntryPoint (tree : List String) (spec : String) : Option (String × String) :=
  let afterName := (breakOnChar ('=') spec.data).2
  let target := breakOnChar (':') afterName
  if tree.contains (String.mk target.1) then
    some (String.mk target.1, String.mk target.2)
  else none

/-! ## Helper lemmas -/

/-- Removing comment lines leaves the statement list of a file unchanged:
comments never carry statements. -/
theorem fileStatements_stripCommentLines (f : List PyLine) :
    fileStatements (stripCommentLines f) = fileStatements f := by
  induction f with
  | nil => rfl
  | cons l rest ih =>
      cases l with
      | code s => simpa [stripCommentLines, fileStatements] using congrArg (s :: ·) ih
      | comment s => simpa [stripCommentLines, fileStatements] using ih
      | blank => simpa [stripCommentLines, fileStatements] using ih

/-- Removing comment lines does not change how a file compiles. -/
theorem compileFile_stripCommentLines (f : List PyLine) :
    compileFile (stripCommentLines f) = compileFile f := by
  simp [compileFile, fileStatements_stripCommentLines]

/-! ## Claims -/

/-- Claim C1: importing the top-level package `llamamoonlight` fails with
a module-resolution error (`ModuleNotFoundError`), because the statement
`from .client import Client, Config` in `__init__.py` resolves the
submodule name `llamamoonlight.client`, which does not exist in the source
tree; the import never succeeds. -/
theorem C1_import_fails :
    importLlamamoonlight init_py =
        Except.error (PyErr.moduleNotFound ("llamamoonlight.client")) ∧
      llamaModuleTree.contains ("llamamoonlight.client") = false :=
  ⟨rfl, rfl⟩

/-- Claim C2, counterexample: it is not the case that `setup` receives a
keyword mapping whose `packages` entry is the second occurrence
(`find_packages(where="src")`) — the repeated keyword means the call is
rejected at compile time and `setup` receives nothing at all. -/
theorem C2_counterexample :
    ¬ ∃ m, receivedKwargs setupCallKwargs = some m ∧
        m.lookup ("packages") =
          some (PyExpr.call ("find_packages") [("where", PyAtom.str ("src"))]) := by
  rintro ⟨m, hm, -⟩
  rw [show receivedKwargs setupCallKwargs = none from rfl] at hm
  exact Option.noConfusion hm

/-- Claim C2, amended: `setup.py` passes the keyword argument `packages=`
twice, but the second occurrence does not override the first — a repeated
keyword argument is a `SyntaxError` at compile time, so the `setup` call
never receives any arguments. -/
theorem C2_packages_repeated :
    (setupCallKwargs.map Prod.fst).count ("packages") = 2 ∧
      duplicateKwNames setupCallKwargs = true ∧
      receivedKwargs setupCallKwargs = none ∧
      compileFile setup_py = Except.error (PyErr.parseError ("keyword argument repeated")) :=
  ⟨by decide, by decide, rfl, rfl⟩

/-- Claim C3: among the supplied source files, `__init__.py` is the only
one with executable content; `setup.py` contributes no executable
statements, because it is rejected at compile time (repeated keyword
argument) and so none of its statements can ever execute. -/
theorem C3_only_init_executable :
    (repoFiles.filter (fun p => !(executableStatements p.2).isEmpty)).map Prod.fst =
        ["src/llamamoonlight/__init__.py"] ∧
      executableStatements setup_py = [] :=
  ⟨rfl, rfl⟩

/-- Claim C4, counterexample: the `install_requires` list of `setup.py`
declares four runtime dependencies, not three. -/
theorem C4_counterexample :
    installRequiresList.length = 4 ∧ installRequiresList.length ≠ 3 :=
  ⟨rfl, by decide⟩

/-- Claim C4, amended: the declared runtime dependencies number exactly
four (`numpy`, `pandas`, `requests`, `tqdm`), and none of them is
referenced (imported or otherwise used) by any code in the repository. -/
theorem C4_four_unreferenced_deps :
    installRequiresList.map requirementName = ["numpy", "pandas", "requests", "tqdm"] ∧
      installRequiresList.length = 4 ∧
      (installRequiresList.map requirementName).all
        (fun d => !(repoReferencedNames.contains d || repoImportedModules.contains d)) = true :=
  ⟨by decide, rfl, by decide⟩

/-- Claim C5: `setup.py` declares a single `console_scripts` entry point,
`llamamoonlight=llamamoonlight.cli:main`; no module `llamamoonlight.cli`
exists in the source tree, so the entry point never resolves to a
callable. -/
theorem C5_entry_point_unresolvable :
    entryPointSpecs = ["llamamoonlight=llamamoonlight.cli:main"] ∧
      llamaModuleTree.contains ("llamamoonlight.cli") = false ∧
      resolveEntryPoint llamaModuleTree ("llamamoonlight=llamamoonlight.cli:main") = none :=
  ⟨rfl, rfl, by decide⟩

/-- Claim C6: `Client` and `Config`, exported via the line-7 import and
the `__all__` list of `__init__.py`, are never defined anywhere in the
supplied source: the only defining statements in the repository bind
`__version__`, `__all__`, `fh` and `long_description` (there is no `class`
or `def` statement at all). -/
theorem C6_client_config_never_defined :
    repoDefTargets = ["__version__", "__all__", "fh", "long_description"] ∧
      ("Client") ∉ repoDefTargets ∧
      ("Config") ∉ repoDefTargets ∧
      PyStmt.importFrom true ("client") ["Client", "Config"] ∈ fileStatements init_py ∧
      assignedValue init_py ("__all__") =
        some (PyExpr.atom (PyAtom.strList ["Client", "Config"])) :=
  ⟨rfl, by decide, by decide, by decide, rfl⟩

/-- Claim C7: the optional extras declared in `setup.py` are exactly
`dev`, `mlx` and `all`, and none of the packages they name is referenced
by any code in any supplied source file. -/
theorem C7_extras_unreferenced :
    extrasRequireList.map Prod.fst = ["dev", "mlx", "all"] ∧
      (extrasRequireList.flatMap Prod.snd).map requirementName =
        ["pytest", "pytest-cov", "black", "isort", "flake8", "mypy",
         "mlx", "mlx", "matplotlib", "seaborn", "scikit-learn"] ∧
      ((extrasRequireList.flatMap Prod.snd).map requirementName).all
        (fun d => !(repoReferencedNames.contains d || repoImportedModules.contains d)) = true :=
  ⟨rfl, by decide, by decide⟩

/-- Claim C8: the `Updated in commit N - timestamp` comment blocks in both
files contribute no logic: with the comment lines removed, both files
compile identically, `setup.py` runs identically (with or without a
`README.md` present), and importing the package behaves identically. -/
theorem C8_comments_no_logic :
    compileFile (stripCommentLines setup_py) = compileFile setup_py ∧
      compileFile (stripCommentLines init_py) = compileFile init_py ∧
      runFile distModules ["README.md"] ("") (stripCommentLines setup_py) =
        runSetupScript true ∧
      runFile distModules [] ("") (stripCommentLines setup_py) = runSetupScript false ∧
      importLlamamoonlight (stripCommentLines init_py) = importLlamamoonlight init_py :=
  ⟨compileFile_stripCommentLines setup_py, compileFile_stripCommentLines init_py,
    rfl, rfl, rfl⟩

/-- Claim C9: running `src/setup.py` fails at compile time with a
`SyntaxError` (keyword argument repeated), so no statement of the file —
including the `open("README.md")` read — ever executes, whether or not
`README.md` exists. -/
theorem C9_setup_never_runs :
    runSetupScript true = ([], some (PyErr.parseError ("keyword argument repeated"))) ∧
      runSetupScript false = ([], some (PyErr.parseError ("keyword argument repeated"))) :=
  ⟨rfl, rfl⟩

/-- Claim C10: the version string assigned to `__version__` in
`__init__.py` and the `version=` keyword of the `setup(...)` call agree on
the value `0.1.0`. -/
theorem C10_versions_agree :
    assignedValue init_py ("__version__") = some (PyExpr.atom (PyAtom.str ("0.1.0"))) ∧
      setupCallKwargs.lookup ("version") = some (PyExpr.atom (PyAtom.str ("0.1.0"))) :=
  ⟨rfl, rfl⟩

end Llamamoonlight
